import Mathlib

/-!
Verification of `supabase/functions/test-gmail-integration/index.ts`.

JavaScript strings are modelled as `List Char` (`JStr`); `String.toLowerCase`
becomes `jsToLower` (character-wise `Char.toLower`), `String.prototype.endsWith`
becomes `List.isSuffixOf`, `startsWith` becomes `List.isPrefixOf`, and
`substring(2)` becomes `List.drop 2`.  Lean `String` literals supply concrete
inputs through `String.data`.

The network and the credential store are modelled as an explicit `World` state:
an oracle assigning a response to the n-th Gmail-API fetch, a fixed response of
the OAuth token endpoint, a log of the (url, bearer-token) pairs of the API
fetches, a log of the access-token writes to the `auth_tokens` table, and a
counter of token-endpoint calls.  JavaScript exceptions become `Except` values
threaded together with the mutable state, so state mutations performed before a
throw survive it, exactly as closure variables do in the source.
-/

/-- JavaScript strings, modelled as lists of characters. -/
abbrev JStr := List Char

/-- `s.toLowerCase()` of the source, modelled character-wise. -/
def jsToLower (s : JStr) : JStr := s.map Char.toLower

/-- The body of the `NEWSLETTER_PATTERNS.some(pattern => ...)` callback of
`matchesNewsletterPattern` (index.ts lines 34-40): wildcard patterns starting
with `*@` are tested by a lowercased suffix check against `pattern.substring(2)`,
every other pattern by lowercased equality. -/
def matchesPattern (email pattern : JStr) : Bool :=
  if List.isPrefixOf ['*', '@'] pattern then
    List.isSuffixOf (jsToLower (pattern.drop 2)) (jsToLower email)
  else
    jsToLower email == jsToLower pattern

/-- `patterns.some(pattern => ...)` of the source, generalised over the
pattern list. -/
def matchesAnyPattern (email : JStr) (patterns : List JStr) : Bool :=
  patterns.any (fun p => matchesPattern email p)

/-- The static `NEWSLETTER_PATTERNS` array (index.ts lines 21-30). -/
def NEWSLETTER_PATTERNS : List JStr :=
  [ "*@mail.beehiiv.com".data
  , "*@substack.com".data
  , "*@convertkit.com".data
  , "crew@morningbrew.com".data
  , "hello@thehustle.co".data
  , "*@newsletters.feedbinusercontent.com".data
  , "*@ck.convertkit.com".data
  , "*@ghost.org".data ]

/-- `matchesNewsletterPattern` (index.ts lines 33-41). -/
def matchesNewsletterPattern (email : JStr) : Bool :=
  matchesAnyPattern email NEWSLETTER_PATTERNS

example : matchesNewsletterPattern "a@mail.beehiiv.com".data = true := by decide
example : matchesNewsletterPattern "notmail.beehiiv.com".data = true := by decide
example : matchesNewsletterPattern "x@gmail.com".data = false := by decide
example : matchesNewsletterPattern "CREW@MorningBrew.com".data = true := by decide

/-- A Gmail message summary as returned by the list endpoint
(`{id, threadId}` elements of `recentEmails.messages`). -/
structure MessageSummary where
  id : String
  threadId : String
deriving DecidableEq

/-- One `{name, value}` header of a message payload. -/
structure Header where
  name : String
  value : String
deriving DecidableEq

/-- `message.payload`, whose `headers` field may be absent. -/
structure Payload where
  headers : Option (List Header)
deriving DecidableEq

/-- The dynamically-typed JSON body of a Gmail API response: the fields the
handler reads (`messages` of a list response, `payload` of a get response),
each possibly absent. -/
structure ApiBody where
  messages : Option (List MessageSummary)
  payload : Option Payload
deriving DecidableEq

/-- An HTTP response of the Gmail API: status, status text and parsed body. -/
structure ApiResp where
  status : Nat
  statusText : String
  body : ApiBody
deriving DecidableEq

/-- The OAuth token endpoint's behaviour: whether the exchange succeeds
(`response.ok`) and the `access_token` field of its JSON body. -/
structure TokenResp where
  ok : Bool
  access_token : String
deriving DecidableEq

/-- The external world of one request: an oracle giving the response of the
n-th Gmail-API fetch, the token endpoint's response, an opaque clock value
(`new Date().toISOString()`), the log of rows written to `auth_tokens`
(access token paired with the `updated_at` timestamp), the number of calls
made to the token endpoint, and the log of (url, bearer token) pairs of the
Gmail-API fetches. -/
structure World where
  fetchCount : Nat
  responses : Nat → ApiResp
  tokenResp : TokenResp
  clock : String
  dbWrites : List (String × String)
  tokenCalls : Nat
  apiLog : List (String × String)

/-- `Response.ok` of the Fetch API: status in the range 200-299. -/
def respOk (status : Nat) : Bool := decide (200 ≤ status ∧ status ≤ 299)

/-- One `fetch` against the Gmail API: consumes the next oracle response and
records the url and bearer token used. -/
def fetchApi (url bearer : String) (w : World) : ApiResp × World :=
  (w.responses w.fetchCount,
   { w with
      fetchCount := w.fetchCount + 1
      apiLog := w.apiLog ++ [(url, bearer)] })

/-- The errors thrown by the client: `new Error('Failed to refresh token')`
(index.ts line 63) and `` new Error(`Gmail API error: status statusText`) ``
(line 111). -/
inductive GmailError where
  | refreshFailure
  | apiFailure (status : Nat) (statusText : String)
deriving DecidableEq

/-- The client's mutable closure state: `currentAccessToken`. -/
structure ClientState where
  currentAccessToken : String
deriving DecidableEq

/-- `refreshAccessToken` (index.ts lines 47-84): POST the refresh token to the
token endpoint; on non-ok status throw `refreshFailure`; otherwise adopt the
returned access token, write it (with an updated timestamp) to the
`auth_tokens` row of the client's user, and return it. -/
def refreshAccessToken (w : World) : Except GmailError String × World :=
  let w1 := { w with tokenCalls := w.tokenCalls + 1 }
  if w1.tokenResp.ok then
    let newTok := w1.tokenResp.access_token
    (Except.ok newTok,
     { w1 with dbWrites := w1.dbWrites ++ [(newTok, w1.clock)] })
  else
    (Except.error GmailError.refreshFailure, w1)

/-- `makeRequest` (index.ts lines 86-115): fetch with the current access token
as bearer; on a 401, refresh the token once and retry once with the new token;
then a single `response.ok` check throws `apiFailure` with the status and
status text of the (possibly retried) response, else its body is returned. -/
def makeRequest (url : String) (st : ClientState) (w : World) :
    Except GmailError ApiBody × ClientState × World :=
  let p := fetchApi url st.currentAccessToken w
  if p.1.status = 401 then
    match refreshAccessToken p.2 with
    | (Except.error e, w1) => (Except.error e, st, w1)
    | (Except.ok newTok, w1) =>
      let st1 : ClientState := { currentAccessToken := newTok }
      let p2 := fetchApi url newTok w1
      if respOk p2.1.status then (Except.ok p2.1.body, st1, p2.2)
      else (Except.error (GmailError.apiFailure p2.1.status p2.1.statusText), st1, p2.2)
  else
    if respOk p.1.status then (Except.ok p.1.body, st, p.2)
    else (Except.error (GmailError.apiFailure p.1.status p.1.statusText), st, p.2)

/-- The list-endpoint url built by `listMessages` (index.ts lines 118-125);
percent-encoding by `URLSearchParams` is abstracted. -/
def gmailListUrl (query : String) (maxResults : Nat) : String :=
  "https://gmail.googleapis.com/gmail/v1/users/me/messages?q=" ++ query
    ++ "&maxResults=" ++ toString maxResults

/-- The get-endpoint url built by `getMessage` (index.ts line 128). -/
def gmailGetUrl (messageId : String) : String :=
  "https://gmail.googleapis.com/gmail/v1/users/me/messages/" ++ messageId
    ++ "?format=metadata&metadataHeaders=From&metadataHeaders=Subject&metadataHeaders=Date"

/-- `listMessages` (index.ts lines 118-125). -/
def listMessages (query : String) (maxResults : Nat) (st : ClientState) (w : World) :
    Except GmailError ApiBody × ClientState × World :=
  makeRequest (gmailListUrl query maxResults) st w

/-- `getMessage` (index.ts lines 127-130). -/
def getMessage (messageId : String) (st : ClientState) (w : World) :
    Except GmailError ApiBody × ClientState × World :=
  makeRequest (gmailGetUrl messageId) st w

/-- First match of the regex `/<([^>]+)>/` on `s`, returning capture group 1
(index.ts line 233, first alternative).  A match starts at a `'<'` that is
followed by at least one character other than `'>'` and then a `'>'`; the
group is the run between the brackets.  The regex engine tries successive
start positions left to right, which the recursion mirrors. -/
def extractAngle : JStr → Option JStr
  | [] => none
  | c :: rest =>
    if c = '<' then
      let inside := rest.takeWhile (fun x => x ≠ '>')
      if 0 < inside.length ∧ inside.length < rest.length then some inside
      else extractAngle rest
    else extractAngle rest

/-- Whether the regex `/([^\s]+@[^\s]+)/` matches inside a maximal
whitespace-free run: it does exactly when the run contains an `'@'` that is
neither its first nor its last character, and the (leftmost, greedy) match is
then the whole run. -/
def runHasInnerAt (run : JStr) : Bool := ((run.drop 1).dropLast).contains '@'

/-- First match of the regex `/([^\s]+@[^\s]+)/` on `s` (index.ts line 233,
fallback alternative): the leftmost maximal whitespace-free run containing an
interior `'@'`; greediness makes the match (= capture group 1) the whole
run. -/
def extractBare (s : JStr) : Option JStr :=
  ((s.splitOnP Char.isWhitespace).filter (fun r => !r.isEmpty)).find? runHasInnerAt

/-- `String.prototype.trim()`. -/
def jsTrim (s : JStr) : JStr :=
  ((s.dropWhile Char.isWhitespace).reverse.dropWhile Char.isWhitespace).reverse

/-- Lines 233-234 of index.ts: try the angle-bracket regex, fall back to the
bare-address regex, and trim capture group 1 of whichever matched (group 1 is
nonempty whenever a match exists, so `emailMatch[1] || emailMatch[0]` is group
1); with no match the raw `From` value is used untrimmed. -/
def extractEmailAddress (fromV : JStr) : JStr :=
  match extractAngle fromV with
  | some g => jsTrim g
  | none =>
    match extractBare fromV with
    | some g => jsTrim g
    | none => fromV

example : extractEmailAddress "Morning Brew <crew@morningbrew.com>".data
    = "crew@morningbrew.com".data := by decide
example : extractEmailAddress "a b@c.d e".data = "b@c.d".data := by decide
example : extractEmailAddress "nobody here".data = "nobody here".data := by decide

/-- One element pushed onto `detectedNewsletters` (index.ts lines 238-245);
the source's `from` field is `fromValue` here (`from` is reserved in Lean). -/
structure Detected where
  messageId : String
  fromValue : String
  email : JStr
  subject : String
  date : String
  matched : Bool
deriving DecidableEq

/-- Result of the batch loop: the `detectedNewsletters` list, the
`processedCount` counter, and the final client and world states. -/
structure BatchResult where
  detected : List Detected
  processedCount : Nat
  state : ClientState
  world : World

/-- `headers.find(h => h.name === n)?.value || ''` of index.ts lines 228-230. -/
def findHeader (headers : List Header) (n : String) : String :=
  ((headers.find? (fun h => h.name == n)).map Header.value).getD ""

/-- The batch loop of index.ts lines 223-252 on an already-sliced summary
list: per item, fetch the detail; on a throw the `catch` logs and the loop
continues (client/world state mutations made before the throw survive);
otherwise extract the sender address from the `From` header, and when the
newsletter matcher accepts it push a `Detected` entry; `processedCount` is
incremented at the end of every non-throwing iteration. -/
def processMessages : List MessageSummary → ClientState → World → BatchResult
  | [], st, w => ⟨[], 0, st, w⟩
  | m :: rest, st, w =>
    match getMessage m.id st w with
    | (Except.error _, st1, w1) => processMessages rest st1 w1
    | (Except.ok body, st1, w1) =>
      let headers := (body.payload.bind Payload.headers).getD []
      let fromV := findHeader headers "From"
      let subjectV := findHeader headers "Subject"
      let dateV := findHeader headers "Date"
      let emailAddress := extractEmailAddress fromV.data
      let res := processMessages rest st1 w1
      if matchesNewsletterPattern emailAddress then
        { res with
            detected := ⟨m.id, fromV, emailAddress, subjectV, dateV, true⟩ :: res.detected
            processedCount := res.processedCount + 1 }
      else
        { res with processedCount := res.processedCount + 1 }

/-- The environment of one inbound request: whether an authorization header is
present, the user id produced by JWT verification (`none` = invalid or
expired), the `auth_tokens` row of that user (`none` = lookup failed / no
row), the epoch-seconds bound of the recency query, the active
`newsletters_curated` rows (pattern, name), and the network world. -/
structure ReqEnv where
  hasAuthHeader : Bool
  userId : Option String
  authTokens : Option (String × String)
  yesterdayEpoch : Nat
  curatedRows : Option (List (String × String))
  world : World

/-- The failures the top-level `catch` (index.ts lines 290-304) can receive. -/
inductive ServeError where
  | missingAuthHeader
  | invalidOrExpiredToken
  | gmail (e : GmailError)
deriving DecidableEq

/-- The four response shapes of the handler: the no-stored-tokens body (lines
170-181), the no-recent-emails body (lines 200-215), the full report (lines
260-288) and the catch-all error body (lines 293-303). -/
inductive ServeResponse where
  | missingTokens
  | noRecentEmails
  | report (totalEmails processedEmails : Nat)
      (detected : List Detected) (curatedPatternsCount : Nat)
  | serverFailure (e : ServeError)
deriving DecidableEq

/-- HTTP status of each response shape: 500 for the catch-all, 200 otherwise. -/
def ServeResponse.statusCode : ServeResponse → Nat
  | .serverFailure _ => 500
  | _ => 200

/-- The `success` field of each response body. -/
def ServeResponse.successFlag : ServeResponse → Bool
  | .missingTokens => false
  | .serverFailure _ => false
  | _ => true

/-- The `needsReauth` field of each response body (absent = false). -/
def ServeResponse.needsReauthFlag : ServeResponse → Bool
  | .missingTokens => true
  | _ => false

/-- The request handler of index.ts lines 134-305 (the CORS preflight branch
for OPTIONS requests is outside the claims and omitted): missing authorization
header or failed JWT verification throw into the catch-all; a missing
`auth_tokens` row returns the needs-reauth body with status 200; otherwise the
client lists messages for the last 24 hours (a throw lands in the catch-all),
an absent `messages` field returns the no-recent-emails body, and otherwise
the first 10 summaries are processed by the batch loop and the report is
assembled. -/
def serveHandler (req : ReqEnv) : ServeResponse :=
  if !req.hasAuthHeader then ServeResponse.serverFailure ServeError.missingAuthHeader
  else
    match req.userId with
    | none => ServeResponse.serverFailure ServeError.invalidOrExpiredToken
    | some _uid =>
      match req.authTokens with
      | none => ServeResponse.missingTokens
      | some (accessTok, _refreshTok) =>
        let st : ClientState := ⟨accessTok⟩
        let query := "after:" ++ toString req.yesterdayEpoch
        match listMessages query 20 st req.world with
        | (Except.error e, _, _) => ServeResponse.serverFailure (ServeError.gmail e)
        | (Except.ok body, st1, w1) =>
          match body.messages with
          | none => ServeResponse.noRecentEmails
          | some msgs =>
            let r := processMessages (msgs.take 10) st1 w1
            ServeResponse.report msgs.length r.processedCount r.detected
              ((req.curatedRows.map List.length).getD 0)

/-- Claim C1: for every address `addr` and every wildcard pattern `*@d`, the
matcher returns true exactly when the lowercased `addr` ends with the
lowercased `d` (the domain string without a required leading `@`); in
particular `matchesNewsletterPattern` accepts `notmail.beehiiv.com` through
the pattern `*@mail.beehiiv.com`. -/
theorem C1_wildcard_suffix :
    (∀ addr d : JStr,
      matchesPattern addr ('*' :: '@' :: d)
        = List.isSuffixOf (jsToLower d) (jsToLower addr))
    ∧ matchesPattern "notmail.beehiiv.com".data "*@mail.beehiiv.com".data = true := by
  constructor
  · intro addr d
    simp [matchesPattern, List.isPrefixOf]
  · decide

/-- Claim C2 counterexample: the code accepts `notmail.beehiiv.com` against the
wildcard pattern `*@mail.beehiiv.com` although the lowercased address does not
end with the suffix `@mail.beehiiv.com` (the `@`-inclusive suffix the claim
says is tested). -/
theorem C2_counterexample :
    matchesPattern "notmail.beehiiv.com".data "*@mail.beehiiv.com".data = true
    ∧ List.isSuffixOf (jsToLower ('@' :: "mail.beehiiv.com".data))
        (jsToLower "notmail.beehiiv.com".data) = false := by
  exact ⟨by decide, by decide⟩

/-- Claim C2 amended: a wildcard pattern `*@domain` matches exactly when the
lowercased address ends with the lowercased bare domain string with the `@`
stripped, so an address whose ending merely coincides with the bare domain
text, without an `@` at the boundary, is matched as well. -/
theorem C2_amended_bare_domain_suffix :
    ∀ addr domain : JStr,
      matchesPattern addr ('*' :: '@' :: domain) = true
        ↔ List.isSuffixOf (jsToLower domain) (jsToLower addr) = true := by
  intro addr domain
  simp [matchesPattern, List.isPrefixOf]

/-- Claim C7: for every address and every non-wildcard pattern, the matcher
returns true exactly when the lowercased address equals the lowercased
pattern (full-string case-insensitive equality). -/
theorem C7_exact_pattern_equality :
    ∀ addr p : JStr, List.isPrefixOf ['*', '@'] p = false →
      matchesPattern addr p = (jsToLower addr == jsToLower p) := by
  intro addr p h
  simp [matchesPattern, h]

/-- Concrete instance of `C7_exact_pattern_equality` at the exact pattern
`crew@morningbrew.com`. -/
theorem C7_exact_pattern_equality_witness :
    List.isPrefixOf ['*', '@'] "crew@morningbrew.com".data = false
    ∧ matchesPattern "CREW@MorningBrew.com".data "crew@morningbrew.com".data
        = (jsToLower "CREW@MorningBrew.com".data == jsToLower "crew@morningbrew.com".data) :=
  ⟨by decide, C7_exact_pattern_equality _ _ (by decide)⟩

/-- Claim C8: the matcher is a logical OR over the pattern list — it returns
true exactly when some pattern in the list matches; for the empty list it
returns false for every address; and permuting the pattern list never changes
the outcome. -/
theorem C8_any_pattern_or :
    (∀ (email : JStr) (patterns : List JStr),
      matchesAnyPattern email patterns = true
        ↔ ∃ p ∈ patterns, matchesPattern email p = true)
    ∧ (∀ email : JStr, matchesAnyPattern email [] = false)
    ∧ (∀ (email : JStr) (l1 l2 : List JStr), l1.Perm l2 →
        matchesAnyPattern email l1 = matchesAnyPattern email l2) := by
  refine ⟨?_, ?_, ?_⟩
  · intro email patterns
    simp [matchesAnyPattern, List.any_eq_true]
  · intro email
    rfl
  · intro email l1 l2 h
    rw [Bool.eq_iff_iff]
    simp only [matchesAnyPattern, List.any_eq_true]
    constructor
    · rintro ⟨p, hp, hm⟩
      exact ⟨p, h.mem_iff.mp hp, hm⟩
    · rintro ⟨p, hp, hm⟩
      exact ⟨p, h.mem_iff.mpr hp, hm⟩

/-- Concrete instance of `C8_any_pattern_or`: swapping a two-pattern list does
not change the matcher's verdict. -/
theorem C8_any_pattern_or_witness :
    matchesAnyPattern "a@substack.com".data
        ["*@substack.com".data, "x@y.z".data]
      = matchesAnyPattern "a@substack.com".data
        ["x@y.z".data, "*@substack.com".data] :=
  C8_any_pattern_or.2.2 _ _ _ (List.Perm.swap _ _ _)

/-- Claim C3: a wrapped call (`listMessages` and `getMessage` are `makeRequest`
at their urls) whose first fetch returns 401 and whose post-refresh retry
returns 2xx completes successfully with the retried response's body; the
retry carries the newly obtained access token as bearer (second `apiLog`
entry), and exactly one row (the new token with the updated timestamp) is
appended to the credential store's write log. -/
theorem C3_refresh_retry_success :
    (∀ (url : String) (st : ClientState) (w : World),
      (w.responses w.fetchCount).status = 401 →
      w.tokenResp.ok = true →
      respOk (w.responses (w.fetchCount + 1)).status = true →
      makeRequest url st w
        = (Except.ok (w.responses (w.fetchCount + 1)).body,
           ⟨w.tokenResp.access_token⟩,
           { w with
              fetchCount := w.fetchCount + 2
              dbWrites := w.dbWrites ++ [(w.tokenResp.access_token, w.clock)]
              tokenCalls := w.tokenCalls + 1
              apiLog := w.apiLog ++ [(url, st.currentAccessToken),
                                     (url, w.tokenResp.access_token)] }))
    ∧ (∀ (q : String) (n : Nat) (st : ClientState) (w : World),
        listMessages q n st w = makeRequest (gmailListUrl q n) st w)
    ∧ (∀ (i : String) (st : ClientState) (w : World),
        getMessage i st w = makeRequest (gmailGetUrl i) st w) := by
  refine ⟨?_, fun _ _ _ _ => rfl, fun _ _ _ => rfl⟩
  intro url st w h401 htok hok
  simp [makeRequest, fetchApi, refreshAccessToken, h401, htok, hok]

/-- A world answering 401 to the first fetch and 200 to every later one, with
a token endpoint that grants a fresh token. -/
def C3world : World :=
  { fetchCount := 0
    responses := fun n =>
      if n = 0 then ⟨401, "Unauthorized", ⟨none, none⟩⟩
      else ⟨200, "OK", ⟨none, none⟩⟩
    tokenResp := ⟨true, "newTok"⟩
    clock := "2026-10-11T00:00:00.000Z"
    dbWrites := []
    tokenCalls := 0
    apiLog := [] }

/-- Concrete instance of `C3_refresh_retry_success` on `C3world`. -/
theorem C3_refresh_retry_success_witness :
    (C3world.responses C3world.fetchCount).status = 401
    ∧ C3world.tokenResp.ok = true
    ∧ respOk (C3world.responses (C3world.fetchCount + 1)).status = true
    ∧ makeRequest "u" ⟨"oldTok"⟩ C3world
        = (Except.ok (C3world.responses (C3world.fetchCount + 1)).body,
           ⟨C3world.tokenResp.access_token⟩,
           { C3world with
              fetchCount := C3world.fetchCount + 2
              dbWrites := C3world.dbWrites
                ++ [(C3world.tokenResp.access_token, C3world.clock)]
              tokenCalls := C3world.tokenCalls + 1
              apiLog := C3world.apiLog
                ++ [("u", "oldTok"), ("u", C3world.tokenResp.access_token)] }) :=
  ⟨rfl, rfl, rfl, C3_refresh_retry_success.1 "u" ⟨"oldTok"⟩ C3world rfl rfl rfl⟩

/-- Claim C4: a wrapped call whose first fetch returns 401 and whose single
post-refresh retry returns any non-2xx status fails with `apiFailure` carrying
that retry's status and status text; exactly one token-endpoint call is made
(no second refresh) and exactly two API fetches happen (no further retry). -/
theorem C4_retry_failure :
    ∀ (url : String) (st : ClientState) (w : World),
      (w.responses w.fetchCount).status = 401 →
      w.tokenResp.ok = true →
      respOk (w.responses (w.fetchCount + 1)).status = false →
      (makeRequest url st w).1
          = Except.error (GmailError.apiFailure
              (w.responses (w.fetchCount + 1)).status
              (w.responses (w.fetchCount + 1)).statusText)
        ∧ (makeRequest url st w).2.2.tokenCalls = w.tokenCalls + 1
        ∧ (makeRequest url st w).2.2.fetchCount = w.fetchCount + 2 := by
  intro url st w h401 htok hbad
  simp [makeRequest, fetchApi, refreshAccessToken, h401, htok, hbad]

/-- A world answering 401 to every fetch, with a granting token endpoint: the
post-refresh retry receives 401 again. -/
def C4world : World :=
  { fetchCount := 0
    responses := fun _ => ⟨401, "Unauthorized", ⟨none, none⟩⟩
    tokenResp := ⟨true, "newTok"⟩
    clock := "c"
    dbWrites := []
    tokenCalls := 0
    apiLog := [] }

/-- Concrete instance of `C4_retry_failure` on `C4world`. -/
theorem C4_retry_failure_witness :
    (C4world.responses C4world.fetchCount).status = 401
    ∧ C4world.tokenResp.ok = true
    ∧ respOk (C4world.responses (C4world.fetchCount + 1)).status = false
    ∧ ((makeRequest "u" ⟨"tokA"⟩ C4world).1
          = Except.error (GmailError.apiFailure 401 "Unauthorized")
        ∧ (makeRequest "u" ⟨"tokA"⟩ C4world).2.2.tokenCalls = 1
        ∧ (makeRequest "u" ⟨"tokA"⟩ C4world).2.2.fetchCount = 2) :=
  ⟨rfl, rfl, rfl, C4_retry_failure "u" ⟨"tokA"⟩ C4world rfl rfl rfl⟩

/-- Helper: when the detail fetch of the head summary throws, the per-item
`catch` swallows the error and the loop continues on the tail, starting from
the client/world state the failed call left behind. -/
theorem processMessages_cons_error
    (m : MessageSummary) (rest : List MessageSummary) (st : ClientState) (w : World)
    (e : GmailError) (h : (getMessage m.id st w).1 = Except.error e) :
    processMessages (m :: rest) st w
      = processMessages rest (getMessage m.id st w).2.1 (getMessage m.id st w).2.2 := by
  rcases hg : getMessage m.id st w with ⟨r, st1, w1⟩
  rw [hg] at h
  simp only at h
  subst h
  simp [processMessages, hg]

/-- Helper invariant of the batch loop: every pushed entry has `matched = true`
and an address the matcher accepts; at most one entry is pushed per processed
item; and at most one item is processed per input summary. -/
theorem processMessages_inv :
    ∀ (msgs : List MessageSummary) (st : ClientState) (w : World),
      (∀ d ∈ (processMessages msgs st w).detected,
          d.matched = true ∧ matchesNewsletterPattern d.email = true)
      ∧ (processMessages msgs st w).detected.length
          ≤ (processMessages msgs st w).processedCount
      ∧ (processMessages msgs st w).processedCount ≤ msgs.length := by
  intro msgs
  induction msgs with
  | nil => intro st w; simp [processMessages]
  | cons m rest ih =>
    intro st w
    rcases hg : getMessage m.id st w with ⟨r, st1, w1⟩
    cases r with
    | error e =>
      have hrec := ih st1 w1
      simp only [processMessages, hg]
      exact ⟨hrec.1, hrec.2.1, Nat.le_trans hrec.2.2 (Nat.le_succ _)⟩
    | ok body =>
      have hrec := ih st1 w1
      simp only [processMessages, hg]
      by_cases hm : matchesNewsletterPattern
          (extractEmailAddress (findHeader ((body.payload.bind Payload.headers).getD [])
            "From").data) = true
      · simp only [hm, if_true]
        refine ⟨?_, ?_, ?_⟩
        · intro d hd
          rcases List.mem_cons.mp hd with hd | hd
          · subst hd
            exact ⟨rfl, hm⟩
          · exact hrec.1 d hd
        · simpa using Nat.succ_le_succ hrec.2.1
        · simpa using Nat.succ_le_succ hrec.2.2
      · simp only [Bool.not_eq_true] at hm
        simp only [hm, Bool.false_eq_true, if_false]
        exact ⟨hrec.1, Nat.le_trans hrec.2.1 (Nat.le_succ _),
               Nat.succ_le_succ hrec.2.2⟩

/-- Claim C9: a request with a valid identity credential whose credential-store
lookup finds no stored provider tokens is answered with HTTP 200 carrying a
body with `success` false and `needsReauth` true, not an error status. -/
theorem C9_missing_tokens_reauth :
    ∀ (req : ReqEnv) (uid : String),
      req.hasAuthHeader = true →
      req.userId = some uid →
      req.authTokens = none →
      serveHandler req = ServeResponse.missingTokens
      ∧ (serveHandler req).statusCode = 200
      ∧ (serveHandler req).successFlag = false
      ∧ (serveHandler req).needsReauthFlag = true := by
  intro req uid h1 h2 h3
  have hmain : serveHandler req = ServeResponse.missingTokens := by
    simp [serveHandler, h1, h2, h3]
  exact ⟨hmain, by rw [hmain]; rfl, by rw [hmain]; rfl, by rw [hmain]; rfl⟩

/-- A quiet world whose every fetch succeeds with an empty body. -/
def C9world : World :=
  { fetchCount := 0
    responses := fun _ => ⟨200, "OK", ⟨none, none⟩⟩
    tokenResp := ⟨true, "t"⟩
    clock := "c"
    dbWrites := []
    tokenCalls := 0
    apiLog := [] }

/-- A request with a valid identity credential but no stored provider tokens. -/
def C9env : ReqEnv :=
  { hasAuthHeader := true
    userId := some "user-1"
    authTokens := none
    yesterdayEpoch := 1760054400
    curatedRows := none
    world := C9world }

/-- Concrete instance of `C9_missing_tokens_reauth` on `C9env`. -/
theorem C9_missing_tokens_reauth_witness :
    C9env.hasAuthHeader = true
    ∧ C9env.userId = some "user-1"
    ∧ C9env.authTokens = none
    ∧ (serveHandler C9env = ServeResponse.missingTokens
       ∧ (serveHandler C9env).statusCode = 200
       ∧ (serveHandler C9env).successFlag = false
       ∧ (serveHandler C9env).needsReauthFlag = true) :=
  ⟨rfl, rfl, rfl, C9_missing_tokens_reauth C9env "user-1" rfl rfl rfl⟩

/-- A world whose first fetch returns the one-message list and whose later
fetches return 401, with a token endpoint that rejects the exchange: the
refresh triggered by the in-loop `getMessage` fails. -/
def C5world : World :=
  { fetchCount := 0
    responses := fun n =>
      if n = 0 then ⟨200, "OK", ⟨some [⟨"m1", "t1"⟩], none⟩⟩
      else ⟨401, "Unauthorized", ⟨none, none⟩⟩
    tokenResp := ⟨false, "ignored"⟩
    clock := "c"
    dbWrites := []
    tokenCalls := 0
    apiLog := [] }

/-- A fully authorised request over `C5world`. -/
def C5env : ReqEnv :=
  { hasAuthHeader := true
    userId := some "user-1"
    authTokens := some ("tokA", "tokR")
    yesterdayEpoch := 1760000000
    curatedRows := none
    world := C5world }

/-- Claim C5 counterexample: on `C5env` the `getMessage` call inside the batch
loop raises `refreshFailure` (the token endpoint rejected the 401-triggered
exchange), yet the run ends in the 200 report response, not a 500 — the
per-item `catch` swallows the `RefreshFailure` instead of letting it reach the
top-level handler. -/
theorem C5_counterexample :
    (getMessage "m1" ⟨"tokA"⟩
        (listMessages ("after:" ++ toString (1760000000 : Nat)) 20 ⟨"tokA"⟩ C5world).2.2).1
      = Except.error GmailError.refreshFailure
    ∧ serveHandler C5env = ServeResponse.report 1 0 [] 0
    ∧ (serveHandler C5env).statusCode = 200 := by
  exact ⟨by rfl, by decide, by decide⟩

/-- Claim C5 amended: a `refreshFailure` raised by the top-level `listMessages`
call propagates to the handler's catch-all and is reported as a 500; but a
`refreshFailure` raised by a `getMessage` inside the per-item batch loop is
caught there and the loop merely continues with the remaining items. -/
theorem C5_refresh_failure_amended :
    (∀ (req : ReqEnv) (uid : String) (toks : String × String),
      req.hasAuthHeader = true →
      req.userId = some uid →
      req.authTokens = some toks →
      (req.world.responses req.world.fetchCount).status = 401 →
      req.world.tokenResp.ok = false →
      serveHandler req
          = ServeResponse.serverFailure (ServeError.gmail GmailError.refreshFailure)
        ∧ (serveHandler req).statusCode = 500)
    ∧ (∀ (m : MessageSummary) (rest : List MessageSummary) (st : ClientState) (w : World),
        (getMessage m.id st w).1 = Except.error GmailError.refreshFailure →
        processMessages (m :: rest) st w
          = processMessages rest (getMessage m.id st w).2.1 (getMessage m.id st w).2.2) := by
  constructor
  · intro req uid toks h1 h2 h3 h401 htok
    have hmain : serveHandler req
        = ServeResponse.serverFailure (ServeError.gmail GmailError.refreshFailure) := by
      simp [serveHandler, h1, h2, h3, listMessages, makeRequest, fetchApi,
            refreshAccessToken, h401, htok]
    exact ⟨hmain, by rw [hmain]; rfl⟩
  · intro m rest st w h
    exact processMessages_cons_error m rest st w GmailError.refreshFailure h

/-- A world answering 401 to every fetch with a rejecting token endpoint. -/
def C5failWorld : World :=
  { fetchCount := 0
    responses := fun _ => ⟨401, "Unauthorized", ⟨none, none⟩⟩
    tokenResp := ⟨false, "ignored"⟩
    clock := "c"
    dbWrites := []
    tokenCalls := 0
    apiLog := [] }

/-- A fully authorised request over `C5failWorld`: the top-level
`listMessages` call triggers the failing refresh. -/
def C5failEnv : ReqEnv :=
  { hasAuthHeader := true
    userId := some "u1"
    authTokens := some ("a", "r")
    yesterdayEpoch := 1
    curatedRows := none
    world := C5failWorld }

/-- Concrete instance of `C5_refresh_failure_amended` on `C5failEnv`. -/
theorem C5_refresh_failure_amended_witness :
    (C5failEnv.world.responses C5failEnv.world.fetchCount).status = 401
    ∧ C5failEnv.world.tokenResp.ok = false
    ∧ (serveHandler C5failEnv
          = ServeResponse.serverFailure (ServeError.gmail GmailError.refreshFailure)
       ∧ (serveHandler C5failEnv).statusCode = 500) :=
  ⟨rfl, rfl,
   C5_refresh_failure_amended.1 C5failEnv "u1" ("a", "r") rfl rfl rfl rfl rfl⟩

/-- The detail body served to every successful `getMessage` of the C6 run: a
`From` header whose address matches the `*@substack.com` pattern. -/
def C6detailBody : ApiBody :=
  ⟨none, some ⟨some [⟨"From", "A <a@substack.com>"⟩]⟩⟩

/-- A world where the fifth API fetch (index 4, i.e. item number 5 of the
batch) fails with a 500 and every other fetch returns a matching detail. -/
def C6world : World :=
  { fetchCount := 0
    responses := fun n =>
      if n = 4 then ⟨500, "Internal Server Error", ⟨none, none⟩⟩
      else ⟨200, "OK", C6detailBody⟩
    tokenResp := ⟨true, "t"⟩
    clock := "c"
    dbWrites := []
    tokenCalls := 0
    apiLog := [] }

/-- Ten message summaries for the C6 batch. -/
def C6msgs : List MessageSummary :=
  [⟨"m1", "t1"⟩, ⟨"m2", "t2"⟩, ⟨"m3", "t3"⟩, ⟨"m4", "t4"⟩, ⟨"m5", "t5"⟩,
   ⟨"m6", "t6"⟩, ⟨"m7", "t7"⟩, ⟨"m8", "t8"⟩, ⟨"m9", "t9"⟩, ⟨"m10", "t10"⟩]

/-- Claim C6: a per-item failure never aborts the batch — whenever the detail
fetch of the head item throws, the loop simply continues on the tail; and on
the concrete 10-summary batch over `C6world`, where exactly item number 5
throws (its `getMessage` raises a 500 `apiFailure`), the run still yields 9
processed, classified items — all 9 matched here — with the failing item
omitted rather than the whole batch failing. -/
theorem C6_per_item_failure_isolation :
    (∀ (m : MessageSummary) (rest : List MessageSummary) (st : ClientState)
        (w : World) (e : GmailError),
      (getMessage m.id st w).1 = Except.error e →
      processMessages (m :: rest) st w
        = processMessages rest (getMessage m.id st w).2.1 (getMessage m.id st w).2.2)
    ∧ C6msgs.length = 10
    ∧ (getMessage "m5" ⟨"t"⟩ { C6world with fetchCount := 4 }).1
        = Except.error (GmailError.apiFailure 500 "Internal Server Error")
    ∧ (processMessages C6msgs ⟨"t"⟩ C6world).processedCount = 9
    ∧ (processMessages C6msgs ⟨"t"⟩ C6world).detected.length = 9 := by
  refine ⟨fun m rest st w e h => processMessages_cons_error m rest st w e h,
          by decide, by rfl, by decide, by decide⟩

/-- A world answering 500 to every fetch. -/
def C6errWorld : World :=
  { fetchCount := 0
    responses := fun _ => ⟨500, "Internal Server Error", ⟨none, none⟩⟩
    tokenResp := ⟨true, "t"⟩
    clock := "c"
    dbWrites := []
    tokenCalls := 0
    apiLog := [] }

/-- Concrete instance of `C6_per_item_failure_isolation` on `C6errWorld`. -/
theorem C6_per_item_failure_isolation_witness :
    (getMessage "mx" ⟨"t"⟩ C6errWorld).1
        = Except.error (GmailError.apiFailure 500 "Internal Server Error")
    ∧ processMessages [⟨"mx", "tx"⟩] ⟨"t"⟩ C6errWorld
        = processMessages [] (getMessage "mx" ⟨"t"⟩ C6errWorld).2.1
            (getMessage "mx" ⟨"t"⟩ C6errWorld).2.2 :=
  ⟨rfl, C6_per_item_failure_isolation.1 ⟨"mx", "tx"⟩ [] ⟨"t"⟩ C6errWorld
      (GmailError.apiFailure 500 "Internal Server Error") rfl⟩

/-- Claim C10: whenever a run ends in the report response, every entry of the
returned detected-newsletter list has `matched = true` and an address the
pattern matcher accepts, the list is no longer than the processed-email count,
and that count never exceeds 10 (only the first 10 summaries are iterated). -/
theorem C10_report_invariant :
    ∀ (req : ReqEnv) (t p : Nat) (dets : List Detected) (c : Nat),
      serveHandler req = ServeResponse.report t p dets c →
      (∀ d ∈ dets, d.matched = true ∧ matchesNewsletterPattern d.email = true)
      ∧ dets.length ≤ p ∧ p ≤ 10 := by
  intro req t p dets c h
  simp only [serveHandler] at h
  split at h
  · exact absurd h (by simp)
  · split at h
    · exact absurd h (by simp)
    · split at h
      · exact absurd h (by simp)
      · split at h
        · exact absurd h (by simp)
        · split at h
          · exact absurd h (by simp)
          · rename_i st1 w1 hlist xopt msgs hmsgs
            injection h with h1 h2 h3 h4
            subst h2
            subst h3
            refine ⟨(processMessages_inv (msgs.take 10) st1 w1).1,
                    (processMessages_inv (msgs.take 10) st1 w1).2.1,
                    Nat.le_trans (processMessages_inv (msgs.take 10) st1 w1).2.2 ?_⟩
            rw [List.length_take]
            exact Nat.min_le_left _ _

/-- A world whose first fetch lists one message and whose second returns its
detail with a `From` header matching the exact pattern
`crew@morningbrew.com`. -/
def C10world : World :=
  { fetchCount := 0
    responses := fun n =>
      if n = 0 then ⟨200, "OK", ⟨some [⟨"m1", "t1"⟩], none⟩⟩
      else ⟨200, "OK",
        ⟨none, some ⟨some [⟨"From", "Morning Brew <crew@morningbrew.com>"⟩]⟩⟩⟩
    tokenResp := ⟨true, "t"⟩
    clock := "c"
    dbWrites := []
    tokenCalls := 0
    apiLog := [] }

/-- A fully authorised request over `C10world` with one active curated row. -/
def C10env : ReqEnv :=
  { hasAuthHeader := true
    userId := some "u1"
    authTokens := some ("a", "r")
    yesterdayEpoch := 5
    curatedRows := some [("p", "n")]
    world := C10world }

/-- The single detected entry of the `C10env` run. -/
def C10det : Detected :=
  ⟨"m1", "Morning Brew <crew@morningbrew.com>", "crew@morningbrew.com".data, "", "", true⟩

/-- Concrete instance of `C10_report_invariant` on `C10env`, whose run ends in
a report carrying exactly one detected newsletter. -/
theorem C10_report_invariant_witness :
    serveHandler C10env = ServeResponse.report 1 1 [C10det] 1
    ∧ ((∀ d ∈ [C10det], d.matched = true ∧ matchesNewsletterPattern d.email = true)
       ∧ ([C10det] : List Detected).length ≤ 1 ∧ (1 : Nat) ≤ 10) :=
  ⟨by decide, C10_report_invariant C10env 1 1 [C10det] 1 (by decide)⟩

/-- Concrete instance of `C2_amended_bare_domain_suffix` at the pattern
`*@substack.com`. -/
theorem C2_amended_bare_domain_suffix_witness :
    matchesPattern "a@substack.com".data ('*' :: '@' :: "substack.com".data) = true
     ↔ List.isSuffixOf (jsToLower "substack.com".data)
        (jsToLower "a@substack.com".data) = true :=
  C2_amended_bare_domain_suffix "a@substack.com".data "substack.com".data
